import Mathlib

set_option maxHeartbeats 1000000

/-!
Shallow embedding of the smart-contract template-generation pipeline found in
the repository: the staged variant (generate_contracts.js) and the monolithic
script variant.  JavaScript configuration values are modelled by `JSValue`;
JavaScript behaviours that matter to the claims are modelled explicitly:
property access on `null`/`undefined` raises a TypeError, `||` defaulting
triggers on any falsy value, `Array.prototype.some`/`map`/`filter` evaluate
left to right, and `Number(...)` coercion of strings is modelled on
whitespace-trimmed optionally-signed integer literals (the only numeric forms
exercised by the configurations; fractional/hex/exponent strings map to `none`,
i.e. NaN).  JavaScript numbers are modelled as `Int` plus an explicit `nan`
marker.  Strict equality (`===`) and `Array.prototype.includes`
(SameValueZero) are both false on two object values, which is faithful for
JSON-parsed data where distinct parse nodes are never reference-equal.
-/

/-- A JavaScript value as it can appear in the parsed JSON configuration. -/
inductive JSValue where
  | undefined
  | null
  | boolean (b : Bool)
  | num (n : Int)
  | nan
  | str (s : String)
  | obj (fields : List (String × JSValue))

/-- `null` and `undefined` are the nullish values: property access on them
throws a TypeError. -/
def JSValue.nullish : JSValue → Bool
  | .undefined => true
  | .null => true
  | _ => false

/-- JavaScript truthiness: `undefined`, `null`, `false`, `0`, `NaN` and the
empty string are falsy; every object is truthy. -/
def JSValue.truthy : JSValue → Bool
  | .undefined => false
  | .null => false
  | .boolean b => b
  | .num n => n != 0
  | .nan => false
  | .str s => s != ""
  | .obj _ => true

/-- First-match lookup in an object's field list.  JSON.parse deduplicates
keys, so field lists coming from parsed JSON are assumed key-unique. -/
def propFind (k : String) : List (String × JSValue) → JSValue
  | [] => .undefined
  | (k2, v) :: rest => if k2 = k then v else propFind k rest

/-- Property read `v.k` on a value already known to be non-nullish: objects
look the key up, primitives have none of the configuration keys, so the
result is `undefined`. -/
def JSValue.prop : JSValue → String → JSValue
  | .obj fields, k => propFind k fields
  | _, _ => .undefined

/-- Strict equality `===`.  `NaN === NaN` is false; two object values from
distinct JSON parse nodes are never reference-equal. -/
def strictEqJS : JSValue → JSValue → Bool
  | .undefined, .undefined => true
  | .null, .null => true
  | .boolean a, .boolean b => a == b
  | .num a, .num b => a == b
  | .str a, .str b => a == b
  | _, _ => false

/-- SameValueZero, as used by `Array.prototype.includes`: like `===` but
`NaN` matches `NaN`. -/
def sameValueZero : JSValue → JSValue → Bool
  | .nan, .nan => true
  | a, b => strictEqJS a b

/-- `Array.prototype.includes`. -/
def includesJS (xs : List JSValue) (v : JSValue) : Bool :=
  xs.any (fun x => sameValueZero x v)

/-- Is a character one of the whitespace forms trimmed by `Number(...)`. -/
def isSpaceChar (c : Char) : Bool :=
  c = ' ' || c = '\t' || c = '\n' || c = '\r'

/-- Trim leading and trailing whitespace. -/
def trimChars (cs : List Char) : List Char :=
  ((cs.dropWhile isSpaceChar).reverse.dropWhile isSpaceChar).reverse

def digitsToNatAux : List Char → Nat → Option Nat
  | [], acc => some acc
  | c :: cs, acc =>
      if c.isDigit then digitsToNatAux cs (acc * 10 + (c.toNat - 48)) else none

/-- Parse a non-empty all-digit character list. -/
def digitsToNat : List Char → Option Nat
  | [] => none
  | c :: cs => digitsToNatAux (c :: cs) 0

/-- `Number(s)` for a string, on the integer fragment: trims whitespace, the
empty string is `0`, an optionally-signed digit string is its value, anything
else is NaN (`none`). -/
def strToNumber (s : String) : Option Int :=
  match trimChars s.toList with
  | [] => some 0
  | '-' :: rest => (digitsToNat rest).map (fun n => -(n : Int))
  | '+' :: rest => (digitsToNat rest).map (fun n => (n : Int))
  | cs => (digitsToNat cs).map (fun n => (n : Int))

/-- The JavaScript `Number(...)` coercion; `none` stands for NaN.
`Number({}) ` is NaN for the plain objects appearing here. -/
def toNumber : JSValue → Option Int
  | .undefined => none
  | .null => some 0
  | .boolean b => some (if b then 1 else 0)
  | .num n => some n
  | .nan => none
  | .str s => strToNumber s
  | .obj _ => none

/-- `x > 0` where `x` is the result of `Number(...)`; NaN comparisons are
false. -/
def numGtZero : Option Int → Bool
  | some n => 0 < n
  | none => false

/-- `getRowsArray` from the source: a row collection is read as the list of
its values; anything falsy or non-object yields the empty list. -/
def getRowsArray : JSValue → List JSValue
  | .obj fields => fields.map Prod.snd
  | _ => []

/-- The error taxonomy of the pipeline.  `typeError` models an uncaught
JavaScript TypeError (property access on a nullish value); the other
constructors carry the thrown message. -/
inductive PipeError where
  | configLoad (msg : String)
  | missingRequiredField (msg : String)
  | vestingData (msg : String)
  | unlockingData (msg : String)
  | invalidAgentReference (msg : String)
  | typeError
deriving DecidableEq, Repr

/-- Strict property access `v.k`: a TypeError if `v` is nullish, otherwise
the property value. -/
def strictProp (v : JSValue) (k : String) : Except PipeError JSValue :=
  if v.nullish then .error .typeError else .ok (v.prop k)

/-- Optional-chained access `v?.k`: `undefined` if `v` is nullish, otherwise
the property value. -/
def optChain (v : JSValue) (k : String) : JSValue :=
  if v.nullish then .undefined else v.prop k

/-- A chain `v?.k1?.k2?...` of optional accesses. -/
def optChainPath (v : JSValue) (ks : List String) : JSValue :=
  ks.foldl optChain v

/-- A chain `v.k1.k2...` of strict accesses. -/
def strictPropPath (v : JSValue) : List String → Except PipeError JSValue
  | [] => .ok v
  | k :: ks => do
      let v2 ← strictProp v k
      strictPropPath v2 ks

/-- Monadic `map` over `Except`, evaluating left to right and stopping at the
first error; models a JavaScript `Array.prototype.map` whose callback can
throw. -/
def mapME (f : JSValue → Except PipeError α) : List JSValue → Except PipeError (List α)
  | [] => .ok []
  | x :: xs => do
      let y ← f x
      let ys ← mapME f xs
      .ok (y :: ys)

/-- Monadic short-circuiting `any`; models `Array.prototype.some` with a
callback that can throw: evaluation stops at the first `true` (or the first
throw). -/
def anyME (f : JSValue → Except PipeError Bool) : List JSValue → Except PipeError Bool
  | [] => .ok false
  | x :: xs => do
      if (← f x) then .ok true else anyME f xs

/-- Default placeholder for a missing `vestingAndUnlocking` section. -/
def vauDefault : JSValue :=
  .obj [("tables", .obj [("unlocking", .obj [("rows", .obj [])]),
                         ("vesting", .obj [("rows", .obj [])])])]

/-- Default placeholder for a missing `pools` section. -/
def poolsDefault : JSValue :=
  .obj [("tables", .obj [("pools", .obj [("rows", .obj [])])])]

/-- Default placeholder for a missing `agents` / `investmentRounds` section. -/
def rowsDefault : JSValue := .obj [("rows", .obj [])]

/-- Default placeholder for a missing `projectServices` section. -/
def servicesDefault : JSValue :=
  .obj [("serviceTables", .obj [("staking", .obj [("rows", .obj [])]),
                                ("farming", .obj [("rows", .obj [])])])]

/-- `jsonData.k || dflt`: strict access on the parse result followed by the
falsy-defaulting of the source's section initialisers. -/
def sectionOrDefault (jsonData : JSValue) (k : String) (dflt : JSValue) :
    Except PipeError JSValue := do
  let v ← strictProp jsonData k
  .ok (if v.truthy then v else dflt)

/-- The pure value computed by `sectionOrDefault` on a non-nullish input. -/
def sectionVal (jsonData : JSValue) (k : String) (dflt : JSValue) : JSValue :=
  if (jsonData.prop k).truthy then jsonData.prop k else dflt

/-- The normalized configuration produced by the loader: the six top-level
sections after defaulting. -/
structure ProjectData where
  initialData : JSValue
  vestingAndUnlocking : JSValue
  pools : JSValue
  agents : JSValue
  investmentRounds : JSValue
  projectServices : JSValue

/-- `loadProjectData` from generate_contracts.js: the input is either a
read/parse failure (carrying the underlying message) or the parsed JSON
value; each top-level section defaults independently when falsy, then the two
required `initialData` scalars are checked. -/
def loadProjectData (input : Except String JSValue) : Except PipeError ProjectData := do
  match input with
  | .error msg =>
      throw (.configLoad ("Failed to read or parse JSON file at tokenomicsData.json: " ++ msg))
  | .ok jsonData =>
      let initialData ← sectionOrDefault jsonData "initialData" (.obj [])
      let vestingAndUnlocking ← sectionOrDefault jsonData "vestingAndUnlocking" vauDefault
      let pools ← sectionOrDefault jsonData "pools" poolsDefault
      let agents ← sectionOrDefault jsonData "agents" rowsDefault
      let investmentRounds ← sectionOrDefault jsonData "investmentRounds" rowsDefault
      let projectServices ← sectionOrDefault jsonData "projectServices" servicesDefault
      let tokenName ← strictProp initialData "tokenName"
      let totalTokensAmount ← strictProp initialData "totalTokensAmount"
      if !tokenName.truthy || !totalTokensAmount.truthy then
        throw (.missingRequiredField
          "Missing required fields in JSON: initialData.tokenName and initialData.totalTokensAmount are required")
      .ok ⟨initialData, vestingAndUnlocking, pools, agents, investmentRounds, projectServices⟩

/-- The per-row pool activation test `row.amount && Number(row.amount) > 0`;
the property access throws on a nullish row. -/
def poolRowActive (row : JSValue) : Except PipeError Bool := do
  let a ← strictProp row "amount"
  .ok (a.truthy && numGtZero (toNumber a))

/-- The active-service list built by the five sequential pushes, in source
order. -/
def activeList (vesting unlocking pools staking farming : Bool) : List String :=
  (if vesting then ["vesting"] else []) ++
  (if unlocking then ["unlocking"] else []) ++
  (if pools then ["pools"] else []) ++
  (if staking then ["staking"] else []) ++
  (if farming then ["farming"] else [])

/-- The rows of one table reached through the refactored variant's optional
chaining, e.g. `projectData.pools?.tables?.pools?.rows`. -/
def optTableRows (sectionV : JSValue) (outer inner : String) : List JSValue :=
  getRowsArray (optChainPath sectionV [outer, inner, "rows"])

/-- `determineActiveServices` from generate_contracts.js.  All table reads are
optional-chained; only the per-row `amount` accesses of the pools test can
throw. -/
def determineActiveServices (pd : ProjectData) : Except PipeError (List String) := do
  let vestingRows := optTableRows pd.vestingAndUnlocking "tables" "vesting"
  let unlockingRows := optTableRows pd.vestingAndUnlocking "tables" "unlocking"
  let poolRows := optTableRows pd.pools "tables" "pools"
  let stakingRows := optTableRows pd.projectServices "serviceTables" "staking"
  let farmingRows := optTableRows pd.projectServices "serviceTables" "farming"
  let poolsActive ← anyME poolRowActive poolRows
  .ok (activeList (vestingRows.length > 0) (unlockingRows.length > 0) poolsActive
        (stakingRows.length > 0) (farmingRows.length > 0))

/-- The row-resolution test of the unlocking validator, one row at a time:
`row.agent_optionType === 'agent' ? !validAgents.includes(row.agent_optionValue)
 : row.agent_optionType === 'investmentRound' ? !validInvestmentRounds.includes(...)
 : true`. -/
def unlockRowInvalid (validAgents validInvestmentRounds : List JSValue)
    (row : JSValue) : Except PipeError Bool := do
  let t ← strictProp row "agent_optionType"
  if strictEqJS t (.str "agent") then do
    let v ← strictProp row "agent_optionValue"
    .ok (!(includesJS validAgents v))
  else if strictEqJS t (.str "investmentRound") then do
    let v ← strictProp row "agent_optionValue"
    .ok (!(includesJS validInvestmentRounds v))
  else
    .ok true

/-- How `Array.prototype.join` renders one element: `null` and `undefined`
become the empty string, other values go through `String(...)`. -/
def jsDisplay : JSValue → String
  | .undefined => ""
  | .null => ""
  | .boolean b => if b then "true" else "false"
  | .num n => toString n
  | .nan => "NaN"
  | .str s => s
  | .obj _ => "[object Object]"

/-- The `filter(...).map(row => row.agent_optionValue)` collection of invalid
references followed by the throw, shared verbatim between the two variants:
the filter conditions are evaluated for every row first, then the kept rows'
`agent_optionValue` fields are read. -/
def checkInvalidAgents (validAgents validInvestmentRounds unlockingRows : List JSValue) :
    Except PipeError Unit := do
  let conds ← mapME (unlockRowInvalid validAgents validInvestmentRounds) unlockingRows
  let kept := (unlockingRows.zip conds).filterMap (fun p => if p.2 then some p.1 else none)
  let invalidAgents ← mapME (fun row => strictProp row "agent_optionValue") kept
  if invalidAgents.length > 0 then
    throw (.invalidAgentReference
      ("Invalid agents in unlocking data: " ++ String.intercalate ", " (invalidAgents.map jsDisplay)))

/-- `validateServiceData` from generate_contracts.js. -/
def validateServiceData (activeServices : List String) (pd : ProjectData) :
    Except PipeError Unit := do
  if activeServices.contains "vesting" then
    if (optTableRows pd.pools "tables" "pools").length = 0 then
      throw (.vestingData "Vesting requires pool data")
    if (getRowsArray (optChain pd.agents "rows")).length = 0 then
      throw (.vestingData "Vesting requires agent data")
  if activeServices.contains "unlocking" then
    let agentRows := getRowsArray (← strictProp pd.agents "rows")
    let investmentRoundRows := getRowsArray (← strictProp pd.investmentRounds "rows")
    if agentRows.length = 0 ∧ investmentRoundRows.length = 0 then
      throw (.unlockingData "Unlocking requires agent or investment round data")
    let validAgents ← mapME (fun row => strictProp row "agentName") agentRows
    let validInvestmentRounds ← mapME (fun row => strictProp row "source_name") investmentRoundRows
    let unlockingRows := getRowsArray (← strictPropPath pd.vestingAndUnlocking ["tables", "unlocking", "rows"])
    checkInvalidAgents validAgents validInvestmentRounds unlockingRows

/-- The activation condition of a template descriptor: absent, a single
service name, or a list of names. -/
inductive ServiceSpec where
  | noService
  | single (s : String)
  | multi (ss : List String)
deriving DecidableEq, Repr

/-- One entry of the static template catalog. -/
structure TemplateDescr where
  input : String
  output : String
  required : Bool := false
  service : ServiceSpec := .noService
deriving DecidableEq, Repr

/-- `ALL_TEMPLATES` / `allTemplates`: the fixed six-descriptor catalog, in
source order (identical in both variants). -/
def ALL_TEMPLATES : List TemplateDescr :=
  [ { input := "Token.sol.hbs", output := "Token.sol", required := true },
    { input := "Vesting.sol.hbs", output := "Vesting.sol", service := .single "vesting" },
    { input := "PoolManager.sol.hbs", output := "PoolManager.sol",
      service := .multi ["vesting", "unlocking", "pools"] },
    { input := "IToken.sol.hbs", output := "IToken.sol", required := true },
    { input := "Unlocking.sol.hbs", output := "Unlocking.sol", service := .single "unlocking" },
    { input := "IPoolManager.sol.hbs", output := "IPoolManager.sol",
      service := .multi ["vesting", "unlocking", "pools"] } ]

/-- The refactored variant's template filter predicate: required templates
always pass; an array service passes when any listed service is active; a
single service passes when active; with no service field,
`activeServices.includes(undefined)` is false. -/
def templateSelectedRef (activeServices : List String) (t : TemplateDescr) : Bool :=
  if t.required then true
  else
    match t.service with
    | .multi ss => ss.any (fun s => activeServices.contains s)
    | .single s => activeServices.contains s
    | .noService => false

/-- The monolithic variant's template filter predicate: same tests, but with
an explicit `if (template.service)` truthiness guard before the array check. -/
def templateSelectedMono (activeServices : List String) (t : TemplateDescr) : Bool :=
  if t.required then true
  else
    match t.service with
    | .noService => false
    | .multi ss => ss.any (fun s => activeServices.contains s)
    | .single s => activeServices.contains s

/-- The shared template context built by `generateContracts`: the whole
normalized configuration plus the five service flags. -/
structure TemplateContext where
  data : ProjectData
  hasVesting : Bool
  hasUnlocking : Bool
  hasPools : Bool
  hasStaking : Bool
  hasFarming : Bool

/-- The context construction (identical in both variants). -/
def buildTemplateContext (pd : ProjectData) (activeServices : List String) : TemplateContext :=
  { data := pd
    hasVesting := activeServices.contains "vesting"
    hasUnlocking := activeServices.contains "unlocking"
    hasPools := activeServices.contains "pools"
    hasStaking := activeServices.contains "staking"
    hasFarming := activeServices.contains "farming" }

/-- The refactored pipeline (`main` of generate_contracts.js) as a function
of the load result, with the catch-all of `main` made explicit.  Writing a
file is modelled by recording the descriptor's output name; the template
directory is assumed to hold every catalog template (TemplateNotFoundError is
out of scope for the claims, all of which concern stages before rendering or
successful runs).  The result is the ordered list of files written together
with the error that aborted the run, if any: every error path aborts before
`generateContracts`, hence before any write. -/
def runMain (input : Except String JSValue) : List String × Option PipeError :=
  match (do
      let pd ← loadProjectData input
      let activeServices ← determineActiveServices pd
      validateServiceData activeServices pd
      .ok ((ALL_TEMPLATES.filter (templateSelectedRef activeServices)).map TemplateDescr.output)
    : Except PipeError (List String)) with
  | .ok outs => (outs, none)
  | .error e => ([], some e)

/-- The monolithic variant's table-row extraction
`getRowsArray(sectionV.tables.x && sectionV.tables.x.rows)`: strict accesses,
so a truthy section whose `tables` member is nullish throws a TypeError. -/
def monoTableRows (sectionV : JSValue) (outer inner : String) :
    Except PipeError (List JSValue) := do
  let tables ← strictProp sectionV outer
  let entry ← strictProp tables inner
  if entry.truthy then
    let rows ← strictProp entry "rows"
    .ok (getRowsArray rows)
  else
    .ok (getRowsArray entry)

/-- The monolithic script's service validation block (lines following the
activation inference), operating on its precomputed row arrays: the vesting
checks use the strict `poolRows` / `agentsData.rows` reads, and the unlocking
check reuses the precomputed `unlockingRows`. -/
def monoValidation (activeServices : List String) (poolRows unlockingRows : List JSValue)
    (agentsData investmentRoundsData : JSValue) : Except PipeError Unit := do
  if activeServices.contains "vesting" then
    if poolRows.length = 0 then
      throw (.vestingData "Vesting requires pool data")
    if (getRowsArray (← strictProp agentsData "rows")).length = 0 then
      throw (.vestingData "Vesting requires agent data")
  if activeServices.contains "unlocking" then
    let agentRows := getRowsArray (← strictProp agentsData "rows")
    let investmentRoundRows := getRowsArray (← strictProp investmentRoundsData "rows")
    if agentRows.length = 0 ∧ investmentRoundRows.length = 0 then
      throw (.unlockingData "Unlocking requires agent or investment round data")
    let validAgents ← mapME (fun row => strictProp row "agentName") agentRows
    let validInvestmentRounds ← mapME (fun row => strictProp row "source_name") investmentRoundRows
    checkInvalidAgents validAgents validInvestmentRounds unlockingRows

/-- The monolithic script (src/unnamed/part_000) from the parse result to the
written files, same conventions as `runMain`.  Section defaulting and the
required-field check mirror the staged variant (with a shorter message); row
extraction is strict; validation and selection follow the same code. -/
def runMonoE (jsonData : JSValue) : Except PipeError (List String) := do
  let data ← sectionOrDefault jsonData "initialData" (.obj [])
  let vestingData ← sectionOrDefault jsonData "vestingAndUnlocking" vauDefault
  let poolsData ← sectionOrDefault jsonData "pools" poolsDefault
  let agentsData ← sectionOrDefault jsonData "agents" rowsDefault
  let investmentRoundsData ← sectionOrDefault jsonData "investmentRounds" rowsDefault
  let projectServicesData ← sectionOrDefault jsonData "projectServices" servicesDefault
  let tokenName ← strictProp data "tokenName"
  let totalTokensAmount ← strictProp data "totalTokensAmount"
  if !tokenName.truthy || !totalTokensAmount.truthy then
    throw (.missingRequiredField
      "Missing required fields in JSON: tokenName and totalTokensAmount are required")
  let vestingRows ← monoTableRows vestingData "tables" "vesting"
  let unlockingRows ← monoTableRows vestingData "tables" "unlocking"
  let poolRows ← monoTableRows poolsData "tables" "pools"
  let stakingRows ← monoTableRows projectServicesData "serviceTables" "staking"
  let farmingRows ← monoTableRows projectServicesData "serviceTables" "farming"
  let poolsActive ← anyME poolRowActive poolRows
  let activeServices := activeList (vestingRows.length > 0) (unlockingRows.length > 0)
      poolsActive (stakingRows.length > 0) (farmingRows.length > 0)
  monoValidation activeServices poolRows unlockingRows agentsData investmentRoundsData
  .ok ((ALL_TEMPLATES.filter (templateSelectedMono activeServices)).map TemplateDescr.output)

/-- The monolithic script as run: a parse failure carries its own message
shape; errors abort before any write. -/
def runMono (input : Except String JSValue) : List String × Option PipeError :=
  match (match input with
         | .error msg => .error (.configLoad ("Failed to read or parse JSON: " ++ msg))
         | .ok jsonData => runMonoE jsonData : Except PipeError (List String)) with
  | .ok outs => (outs, none)
  | .error e => ([], some e)

/-- A configuration whose only active service is unlocking, with a resolvable
agent reference: one unlocking row pointing at agent Alice. -/
def cfgUnlockOnly : JSValue :=
  .obj [ ("initialData", .obj [("tokenName", .str "Tok"), ("totalTokensAmount", .num 1000)]),
         ("vestingAndUnlocking", .obj [("tables", .obj
            [ ("vesting", .obj [("rows", .obj [])]),
              ("unlocking", .obj [("rows", .obj
                 [("u1", .obj [("agent_optionType", .str "agent"),
                               ("agent_optionValue", .str "Alice")])])]) ])]),
         ("agents", .obj [("rows", .obj [("a1", .obj [("agentName", .str "Alice")])])]) ]

/-- A configuration whose `vestingAndUnlocking` section is present (truthy)
but lacks the `tables` member. -/
def cfgBareVau : JSValue :=
  .obj [ ("initialData", .obj [("tokenName", .str "Tok"), ("totalTokensAmount", .num 1000)]),
         ("vestingAndUnlocking", .obj []) ]

/-- A configuration with a single `null` pool row. -/
def cfgNullPoolRow : JSValue :=
  .obj [ ("initialData", .obj [("tokenName", .str "Tok"), ("totalTokensAmount", .num 1000)]),
         ("pools", .obj [("tables", .obj [("pools", .obj [("rows", .obj [("p1", .null)])])])]) ]

/-- A configuration with a single `null` unlocking row and one agent. -/
def cfgNullUnlockRow : JSValue :=
  .obj [ ("initialData", .obj [("tokenName", .str "Tok"), ("totalTokensAmount", .num 1000)]),
         ("vestingAndUnlocking", .obj [("tables", .obj
            [ ("vesting", .obj [("rows", .obj [])]),
              ("unlocking", .obj [("rows", .obj [("u1", .null)])]) ])]),
         ("agents", .obj [("rows", .obj [("a1", .obj [("agentName", .str "Alice")])])]) ]

/-- A configuration whose `pools` section is present but `null`. -/
def cfgNullPools : JSValue :=
  .obj [ ("initialData", .obj [("tokenName", .str "Tok"), ("totalTokensAmount", .num 1000)]),
         ("pools", .null) ]

/-- A configuration with a partially-present `pools` section (it has a
`tables` member but no `tables.pools`). -/
def cfgPartialPools : JSValue :=
  .obj [ ("initialData", .obj [("tokenName", .str "Tok"), ("totalTokensAmount", .num 1000)]),
         ("pools", .obj [("tables", .obj [])]) ]

/-- A configuration with one vesting row, one pool row whose amount is the
string "0" (present but not positive), and one agent. -/
def cfgVestingZeroPool : JSValue :=
  .obj [ ("initialData", .obj [("tokenName", .str "Tok"), ("totalTokensAmount", .num 1000)]),
         ("vestingAndUnlocking", .obj [("tables", .obj
            [ ("vesting", .obj [("rows", .obj [("v1", .obj [("agentName", .str "Alice")])])]),
              ("unlocking", .obj [("rows", .obj [])]) ])]),
         ("pools", .obj [("tables", .obj [("pools", .obj
            [("rows", .obj [("p1", .obj [("amount", .str "0")])])])])]),
         ("agents", .obj [("rows", .obj [("a1", .obj [("agentName", .str "Alice")])])]) ]

/-- A configuration with one pool row whose amount is the string "3". -/
def cfgPoolThree : JSValue :=
  .obj [ ("initialData", .obj [("tokenName", .str "Tok"), ("totalTokensAmount", .num 1000)]),
         ("pools", .obj [("tables", .obj [("pools", .obj
            [("rows", .obj [("p1", .obj [("amount", .str "3")])])])])]) ]

/-- A configuration with one vesting row, one `null` pool row, and one
agent. -/
def cfgVestingNullPool : JSValue :=
  .obj [ ("initialData", .obj [("tokenName", .str "Tok"), ("totalTokensAmount", .num 1000)]),
         ("vestingAndUnlocking", .obj [("tables", .obj
            [ ("vesting", .obj [("rows", .obj [("v1", .obj [])])]),
              ("unlocking", .obj [("rows", .obj [])]) ])]),
         ("pools", .obj [("tables", .obj [("pools", .obj
            [("rows", .obj [("p1", .null)])])])]),
         ("agents", .obj [("rows", .obj [("a1", .obj [("agentName", .str "Alice")])])]) ]

/-- The claim's description of unlocking-row resolution: an `"agent"` row
resolves against some agent's `agentName`, an `"investmentRound"` row against
some investment round's `source_name`, and any other (or missing)
`agent_optionType` never resolves. -/
def specResolvesRow (validAgents validInvestmentRounds : List JSValue) (row : JSValue) : Bool :=
  if strictEqJS (row.prop "agent_optionType") (.str "agent") then
    includesJS validAgents (row.prop "agent_optionValue")
  else if strictEqJS (row.prop "agent_optionType") (.str "investmentRound") then
    includesJS validInvestmentRounds (row.prop "agent_optionValue")
  else false

/-- The claim's description of the collected failures: every non-resolving
row's `agent_optionValue`, in row iteration order, duplicates preserved. -/
def specInvalidValues (validAgents validInvestmentRounds unlockingRows : List JSValue) :
    List JSValue :=
  (unlockingRows.filter
      (fun row => !(specResolvesRow validAgents validInvestmentRounds row))).map
    (fun row => row.prop "agent_optionValue")

/-- The kind of a pipeline error, forgetting the message wording. -/
inductive ErrKind where
  | loadKind
  | missingFieldKind
  | vestingKind
  | unlockingKind
  | invalidAgentKind
  | typeErrorKind
deriving DecidableEq, Repr

def kindOf : PipeError → ErrKind
  | .configLoad _ => .loadKind
  | .missingRequiredField _ => .missingFieldKind
  | .vestingData _ => .vestingKind
  | .unlockingData _ => .unlockingKind
  | .invalidAgentReference _ => .invalidAgentKind
  | .typeError => .typeErrorKind

/-- A truthy top-level section keeps its inner container (`tables` /
`serviceTables`) non-nullish, so the monolithic variant's strict accesses
cannot throw on it. -/
def innerContainerOk (j : JSValue) (k inner : String) : Prop :=
  (j.prop k).truthy = true → ((j.prop k).prop inner).nullish = false

/-- The inputs on which the two pipeline variants are compared: parse
failures, nullish parses, and parses whose three table-bearing sections keep
their inner containers. -/
def wellFormedInput : Except String JSValue → Prop
  | .error _ => True
  | .ok j => j.nullish = false →
      (innerContainerOk j "vestingAndUnlocking" "tables" ∧
       innerContainerOk j "pools" "tables" ∧
       innerContainerOk j "projectServices" "serviceTables")

/-- The unlocking-only configuration after loading, as a `ProjectData`. -/
def pdUnlockOnly : ProjectData :=
  ⟨ .obj [("tokenName", .str "Tok"), ("totalTokensAmount", .num 1000)],
    .obj [("tables", .obj
      [ ("vesting", .obj [("rows", .obj [])]),
        ("unlocking", .obj [("rows", .obj
           [("u1", .obj [("agent_optionType", .str "agent"),
                         ("agent_optionValue", .str "Alice")])])]) ])],
    poolsDefault,
    .obj [("rows", .obj [("a1", .obj [("agentName", .str "Alice")])])],
    rowsDefault,
    servicesDefault ⟩

/-- The claim's reading of a descriptor's activation condition: its `service`
field — a single name or an array — intersects the active-service list. -/
def serviceIntersects : ServiceSpec → List String → Bool
  | .noService, _ => false
  | .single s, activeServices => activeServices.contains s
  | .multi ss, activeServices => ss.any (fun s => activeServices.contains s)

/-- Bind on `Except` reduces on a success. -/
theorem except_bind_ok {ε α β : Type} (a : α) (f : α → Except ε β) :
    (Except.ok a >>= f) = f a := rfl

/-- Bind on `Except` propagates an error. -/
theorem except_bind_error {ε α β : Type} (e : ε) (f : α → Except ε β) :
    ((Except.error e : Except ε α) >>= f) = Except.error e := rfl

/-- A truthy value is not nullish. -/
theorem truthy_not_nullish {v : JSValue} (h : v.truthy = true) : v.nullish = false := by
  cases v <;> simp_all [JSValue.truthy, JSValue.nullish]

/-- Strict access on a non-nullish value succeeds with the property value. -/
theorem strictProp_of_not_nullish {v : JSValue} (k : String) (h : v.nullish = false) :
    strictProp v k = .ok (v.prop k) := by
  simp [strictProp, h]

/-- Optional access on a non-nullish value is the plain property value. -/
theorem optChain_of_not_nullish {v : JSValue} (k : String) (h : v.nullish = false) :
    optChain v k = v.prop k := by
  simp [optChain, h]

/-- A falsy value has no rows. -/
theorem getRowsArray_of_not_truthy {v : JSValue} (h : v.truthy = false) :
    getRowsArray v = [] := by
  cases v <;> simp_all [JSValue.truthy, getRowsArray]

/-- Reading `rows` off a falsy value through optional chaining yields no
rows. -/
theorem optChain_rows_of_not_truthy {v : JSValue} (k : String) (h : v.truthy = false) :
    getRowsArray (optChain v k) = [] := by
  cases v <;> simp_all [JSValue.truthy, optChain, JSValue.nullish, JSValue.prop, getRowsArray]

/-- Section defaulting on a non-nullish parse result succeeds with the pure
`sectionVal`. -/
theorem sectionOrDefault_ok {j : JSValue} (k : String) (d : JSValue) (h : j.nullish = false) :
    sectionOrDefault j k d = .ok (sectionVal j k d) := by
  simp [sectionOrDefault, sectionVal, strictProp, h]
  rfl

/-- A defaulted section is truthy whenever the default is. -/
theorem sectionVal_truthy {j : JSValue} (k : String) {d : JSValue} (hd : d.truthy = true) :
    (sectionVal j k d).truthy = true := by
  unfold sectionVal
  split
  · assumption
  · exact hd

/-- A defaulted section is not nullish whenever the default is truthy. -/
theorem sectionVal_not_nullish {j : JSValue} (k : String) {d : JSValue} (hd : d.truthy = true) :
    (sectionVal j k d).nullish = false :=
  truthy_not_nullish (sectionVal_truthy k hd)

/-- Membership of the five service names in the sequentially-built
active-service list. -/
theorem mem_activeList (b1 b2 b3 b4 b5 : Bool) :
    ("vesting" ∈ activeList b1 b2 b3 b4 b5 ↔ b1 = true) ∧
    ("unlocking" ∈ activeList b1 b2 b3 b4 b5 ↔ b2 = true) ∧
    ("pools" ∈ activeList b1 b2 b3 b4 b5 ↔ b3 = true) ∧
    ("staking" ∈ activeList b1 b2 b3 b4 b5 ↔ b4 = true) ∧
    ("farming" ∈ activeList b1 b2 b3 b4 b5 ↔ b5 = true) := by
  cases b1 <;> cases b2 <;> cases b3 <;> cases b4 <;> cases b5 <;> decide

/-- C1 counterexample: on a concrete configuration whose only active service
is unlocking and which passes validation, the pipeline selects the outputs in
catalog order Token.sol, PoolManager.sol, IToken.sol, Unlocking.sol,
IPoolManager.sol — not the order Token.sol, IToken.sol, PoolManager.sol,
IPoolManager.sol, Unlocking.sol stated by the claim. -/
theorem c1_claimed_order_counterexample :
    (∃ pd, loadProjectData (.ok cfgUnlockOnly) = .ok pd ∧
       determineActiveServices pd = .ok ["unlocking"] ∧
       validateServiceData ["unlocking"] pd = .ok ()) ∧
    runMain (.ok cfgUnlockOnly) =
      (["Token.sol", "PoolManager.sol", "IToken.sol", "Unlocking.sol", "IPoolManager.sol"], none) ∧
    (["Token.sol", "PoolManager.sol", "IToken.sol", "Unlocking.sol", "IPoolManager.sol"] : List String) ≠
      ["Token.sol", "IToken.sol", "PoolManager.sol", "IPoolManager.sol", "Unlocking.sol"] := by
  refine ⟨⟨_, rfl, rfl, rfl⟩, rfl, by decide⟩

/-- C1 (amended): for every configuration that loads, has exactly
`["unlocking"]` as its active-service list and passes validation, the
selected outputs are exactly Token.sol, PoolManager.sol, IToken.sol,
Unlocking.sol, IPoolManager.sol, in that (catalog) order. -/
theorem c1_unlocking_selection (input : Except String JSValue) (pd : ProjectData)
    (h1 : loadProjectData input = .ok pd)
    (h2 : determineActiveServices pd = .ok ["unlocking"])
    (h3 : validateServiceData ["unlocking"] pd = .ok ()) :
    runMain input =
      (["Token.sol", "PoolManager.sol", "IToken.sol", "Unlocking.sol", "IPoolManager.sol"], none) := by
  unfold runMain
  rw [h1, except_bind_ok, h2, except_bind_ok, h3, except_bind_ok]
  rfl

/-- C1 witness: the amended selection theorem applied to the concrete
unlocking-only configuration. -/
theorem c1_unlocking_selection_witness :
    runMain (.ok cfgUnlockOnly) =
      (["Token.sol", "PoolManager.sol", "IToken.sol", "Unlocking.sol", "IPoolManager.sol"], none) :=
  c1_unlocking_selection (.ok cfgUnlockOnly) _ rfl rfl rfl

/-- C2: whenever config loading (including the required-field check) fails,
or cross-field validation fails, the pipeline surfaces exactly that error and
the list of written output files is empty. -/
theorem c2_no_output_on_failure (input : Except String JSValue) :
    (∀ e, loadProjectData input = .error e → runMain input = ([], some e)) ∧
    (∀ pd activeServices e, loadProjectData input = .ok pd →
       determineActiveServices pd = .ok activeServices →
       validateServiceData activeServices pd = .error e →
       runMain input = ([], some e)) := by
  constructor
  · intro e he
    unfold runMain
    rw [he, except_bind_error]
  · intro pd activeServices e h1 h2 h3
    unfold runMain
    rw [h1, except_bind_ok, h2, except_bind_ok, h3, except_bind_error]

/-- C2 witness: the empty configuration is missing both required fields; the
run fails with the MissingRequiredFieldError message and writes nothing. -/
theorem c2_no_output_on_failure_witness :
    runMain (.ok (.obj [])) =
      ([], some (.missingRequiredField
        "Missing required fields in JSON: initialData.tokenName and initialData.totalTokensAmount are required")) :=
  (c2_no_output_on_failure (.ok (.obj []))).1 _ rfl

/-- C3: for every successfully parsed (non-nullish) input, the loader's
required-field stage fails with MissingRequiredFieldError exactly when
`initialData.tokenName` is falsy or `initialData.totalTokensAmount` is falsy
on the defaulted `initialData` section: no other field matters. -/
theorem c3_required_field_check (j : JSValue) (hj : j.nullish = false) :
    (∃ m, loadProjectData (.ok j) = .error (.missingRequiredField m)) ↔
      (((sectionVal j "initialData" (.obj [])).prop "tokenName").truthy = false ∨
       ((sectionVal j "initialData" (.obj [])).prop "totalTokensAmount").truthy = false) := by
  have hInit : (sectionVal j "initialData" (.obj [])).nullish = false :=
    sectionVal_not_nullish "initialData" rfl
  simp only [loadProjectData]
  rw [sectionOrDefault_ok "initialData" _ hj, except_bind_ok,
      sectionOrDefault_ok "vestingAndUnlocking" _ hj, except_bind_ok,
      sectionOrDefault_ok "pools" _ hj, except_bind_ok,
      sectionOrDefault_ok "agents" _ hj, except_bind_ok,
      sectionOrDefault_ok "investmentRounds" _ hj, except_bind_ok,
      sectionOrDefault_ok "projectServices" _ hj, except_bind_ok,
      strictProp_of_not_nullish "tokenName" hInit, except_bind_ok,
      strictProp_of_not_nullish "totalTokensAmount" hInit, except_bind_ok]
  by_cases h1 : ((sectionVal j "initialData" (.obj [])).prop "tokenName").truthy <;>
    by_cases h2 : ((sectionVal j "initialData" (.obj [])).prop "totalTokensAmount").truthy <;>
      simp [h1, h2]
  all_goals exact ⟨_, rfl⟩

/-- C3 witness: the empty configuration (non-nullish) has a falsy
`initialData.tokenName`, and indeed fails with MissingRequiredFieldError. -/
theorem c3_required_field_check_witness :
    ∃ m, loadProjectData (.ok (.obj [])) = .error (.missingRequiredField m) :=
  (c3_required_field_check (.obj []) rfl).mpr (Or.inl rfl)

/-- The source's filter predicate agrees pointwise with
required-or-intersecting. -/
theorem templateSelectedRef_eq (activeServices : List String) (t : TemplateDescr) :
    templateSelectedRef activeServices t =
      (t.required || serviceIntersects t.service activeServices) := by
  unfold templateSelectedRef serviceIntersects
  cases h : t.required <;> cases t.service <;> simp [h]

/-- C7: for every active-service list, template selection returns the subset
of the fixed catalog consisting of every required descriptor plus every
descriptor whose service field intersects the list, in catalog order; in
particular Token.sol and IToken.sol are always selected. -/
theorem c7_selection_subset (activeServices : List String) :
    ((ALL_TEMPLATES.filter (templateSelectedRef activeServices)).Sublist ALL_TEMPLATES) ∧
    (∀ t, t ∈ ALL_TEMPLATES.filter (templateSelectedRef activeServices) ↔
       (t ∈ ALL_TEMPLATES ∧
        (t.required = true ∨ serviceIntersects t.service activeServices = true))) ∧
    ({ input := "Token.sol.hbs", output := "Token.sol", required := true } : TemplateDescr) ∈
      ALL_TEMPLATES.filter (templateSelectedRef activeServices) ∧
    ({ input := "IToken.sol.hbs", output := "IToken.sol", required := true } : TemplateDescr) ∈
      ALL_TEMPLATES.filter (templateSelectedRef activeServices) := by
  refine ⟨List.filter_sublist _, ?_, ?_, ?_⟩
  · intro t
    rw [List.mem_filter, templateSelectedRef_eq]
    simp [Bool.or_eq_true]
  · rw [List.mem_filter]
    exact ⟨by decide, rfl⟩
  · rw [List.mem_filter]
    exact ⟨by decide, rfl⟩

/-- C6: for every configuration and any active-service list containing
vesting, validation fails with "Vesting requires pool data" when the pools
row collection is empty (whatever else is active: the pool check runs
first), and — the pools rows being non-empty — fails with "Vesting requires
agent data" when the agents row collection is empty. -/
theorem c6_vesting_prerequisites (pd : ProjectData) (activeServices : List String)
    (hv : "vesting" ∈ activeServices) :
    ((optTableRows pd.pools "tables" "pools") = [] →
      validateServiceData activeServices pd = .error (.vestingData "Vesting requires pool data")) ∧
    ((optTableRows pd.pools "tables" "pools") ≠ [] →
      getRowsArray (optChain pd.agents "rows") = [] →
      validateServiceData activeServices pd = .error (.vestingData "Vesting requires agent data")) := by
  have hc : activeServices.contains "vesting" = true := List.elem_eq_true_of_mem hv
  constructor
  · intro hpool
    simp [validateServiceData, hc, hv, hpool]
    rfl
  · intro hpool hagents
    have hlen : (optTableRows pd.pools "tables" "pools").length ≠ 0 :=
      fun h => hpool (List.eq_nil_of_length_eq_zero h)
    simp [validateServiceData, hc, hv, hlen, hagents]
    rfl

/-- C6 witness: with vesting active and the default (empty) pools section,
validation fails with the pool-data message. -/
theorem c6_vesting_prerequisites_witness :
    validateServiceData ["vesting"]
      ⟨.obj [], vauDefault, poolsDefault, rowsDefault, rowsDefault, servicesDefault⟩ =
      .error (.vestingData "Vesting requires pool data") :=
  (c6_vesting_prerequisites
    ⟨.obj [], vauDefault, poolsDefault, rowsDefault, rowsDefault, servicesDefault⟩
    ["vesting"] (by decide)).1 rfl

/-- C8 counterexample: a `pools` section that is present in the input but
`null` is replaced wholesale by the placeholder — it is not used as-is, so
presence alone does not make the loader keep a section. -/
theorem c8_null_section_counterexample :
    Except.map ProjectData.pools (loadProjectData (.ok cfgNullPools)) = .ok poolsDefault ∧
    poolsDefault ≠ JSValue.null :=
  ⟨rfl, fun h => JSValue.noConfusion h⟩

/-- C8 (amended): for every non-nullish parse result that loads successfully,
each of the six top-level sections of the produced configuration is,
independently of the others, the input's section when that section is truthy
and the empty-but-well-shaped placeholder otherwise (absent or falsy); a
truthy section — even partially populated — is kept exactly as-is, never
merged field-by-field with the placeholder. -/
theorem c8_section_defaulting (j : JSValue) (hj : j.nullish = false) (pd : ProjectData)
    (h : loadProjectData (.ok j) = .ok pd) :
    pd.initialData = sectionVal j "initialData" (.obj []) ∧
    pd.vestingAndUnlocking = sectionVal j "vestingAndUnlocking" vauDefault ∧
    pd.pools = sectionVal j "pools" poolsDefault ∧
    pd.agents = sectionVal j "agents" rowsDefault ∧
    pd.investmentRounds = sectionVal j "investmentRounds" rowsDefault ∧
    pd.projectServices = sectionVal j "projectServices" servicesDefault := by
  have hInit : (sectionVal j "initialData" (.obj [])).nullish = false :=
    sectionVal_not_nullish "initialData" rfl
  simp only [loadProjectData] at h
  rw [sectionOrDefault_ok "initialData" _ hj, except_bind_ok,
      sectionOrDefault_ok "vestingAndUnlocking" _ hj, except_bind_ok,
      sectionOrDefault_ok "pools" _ hj, except_bind_ok,
      sectionOrDefault_ok "agents" _ hj, except_bind_ok,
      sectionOrDefault_ok "investmentRounds" _ hj, except_bind_ok,
      sectionOrDefault_ok "projectServices" _ hj, except_bind_ok,
      strictProp_of_not_nullish "tokenName" hInit, except_bind_ok,
      strictProp_of_not_nullish "totalTokensAmount" hInit, except_bind_ok] at h
  by_cases hreq : (!((sectionVal j "initialData" (.obj [])).prop "tokenName").truthy ||
      !((sectionVal j "initialData" (.obj [])).prop "totalTokensAmount").truthy) = true
  · rw [if_pos hreq] at h
    injection h
  · rw [if_neg hreq] at h
    injection h with h2
    rw [← h2]
    exact ⟨rfl, rfl, rfl, rfl, rfl, rfl⟩

/-- C8 witness: a partially-present `pools` section (a `tables` member but no
`tables.pools`) is kept exactly as-is by the loader. -/
theorem c8_section_defaulting_witness :
    ∃ pd, loadProjectData (.ok cfgPartialPools) = .ok pd ∧
      pd.pools = JSValue.obj [("tables", .obj [])] :=
  ⟨_, rfl, (c8_section_defaulting cfgPartialPools rfl _ rfl).2.2.1.trans rfl⟩

/-- `numGtZero` succeeds exactly on a non-NaN value greater than zero. -/
theorem numGtZero_iff (o : Option Int) : numGtZero o = true ↔ ∃ n, o = some n ∧ 0 < n := by
  cases o <;> simp [numGtZero]

/-- `anyME` computes a pure `List.any` when every callback call succeeds. -/
theorem anyME_of_ok {g : JSValue → Bool} {f : JSValue → Except PipeError Bool}
    (xs : List JSValue) (h : ∀ x ∈ xs, f x = .ok (g x)) :
    anyME f xs = .ok (xs.any g) := by
  induction xs with
  | nil => rfl
  | cons x xs ih =>
    have hx := h x (by simp)
    have hrest : ∀ y ∈ xs, f y = .ok (g y) := fun y hy => h y (by simp [hy])
    simp only [anyME, hx, except_bind_ok, List.any_cons]
    cases hgx : g x
    · simp [hgx, ih hrest]
    · simp [hgx]

/-- The pool-row test on a non-nullish row is the pure
truthy-and-positive-number condition. -/
theorem poolRowActive_of_not_nullish {row : JSValue} (h : row.nullish = false) :
    poolRowActive row =
      .ok ((row.prop "amount").truthy && numGtZero (toNumber (row.prop "amount"))) := by
  simp only [poolRowActive]
  rw [strictProp_of_not_nullish "amount" h, except_bind_ok]

/-- C4 counterexample: a configuration with a single `null` pool row (its
`amount` is missing) makes service-activation inference raise a TypeError —
it does not silently skip the row. -/
theorem c4_null_row_counterexample :
    (loadProjectData (.ok cfgNullPoolRow) >>= determineActiveServices) = .error .typeError := by
  rfl

/-- C4 (amended): for every configuration whose pool rows are all
non-nullish, activation inference succeeds and the service `pools` is active
iff some pool row has a truthy `amount` whose numeric conversion is a number
greater than zero; non-numeric or missing `amount` values on such rows never
activate `pools` and never raise an error.  (A nullish row itself, however,
raises a TypeError — see the counterexample.) -/
theorem c4_pools_activation (pd : ProjectData)
    (h : ∀ row ∈ optTableRows pd.pools "tables" "pools", row.nullish = false) :
    ∃ activeServices, determineActiveServices pd = .ok activeServices ∧
      ("pools" ∈ activeServices ↔
        ∃ row ∈ optTableRows pd.pools "tables" "pools",
          (row.prop "amount").truthy = true ∧
          ∃ n, toNumber (row.prop "amount") = some n ∧ 0 < n) := by
  have hany : anyME poolRowActive (optTableRows pd.pools "tables" "pools") =
      .ok ((optTableRows pd.pools "tables" "pools").any
        (fun row => (row.prop "amount").truthy && numGtZero (toNumber (row.prop "amount")))) :=
    anyME_of_ok _ (fun row hrow => poolRowActive_of_not_nullish (h row hrow))
  refine ⟨activeList
      (decide ((optTableRows pd.vestingAndUnlocking "tables" "vesting").length > 0))
      (decide ((optTableRows pd.vestingAndUnlocking "tables" "unlocking").length > 0))
      ((optTableRows pd.pools "tables" "pools").any
        (fun row => (row.prop "amount").truthy && numGtZero (toNumber (row.prop "amount"))))
      (decide ((optTableRows pd.projectServices "serviceTables" "staking").length > 0))
      (decide ((optTableRows pd.projectServices "serviceTables" "farming").length > 0)),
    by simp only [determineActiveServices, hany, except_bind_ok], ?_⟩
  rw [(mem_activeList _ _ _ _ _).2.2.1, List.any_eq_true]
  constructor
  · rintro ⟨row, hrow, hcond⟩
    rw [Bool.and_eq_true, numGtZero_iff] at hcond
    exact ⟨row, hrow, hcond.1, hcond.2⟩
  · rintro ⟨row, hrow, htr, hn⟩
    exact ⟨row, hrow, by rw [Bool.and_eq_true, numGtZero_iff]; exact ⟨htr, hn⟩⟩

/-- C4 witness: one pool row with string amount "3" activates `pools`. -/
theorem c4_pools_activation_witness :
    ∃ activeServices,
      determineActiveServices
        ⟨.obj [], vauDefault,
         .obj [("tables", .obj [("pools", .obj [("rows", .obj
            [("p1", .obj [("amount", .str "3")])])])])],
         rowsDefault, rowsDefault, servicesDefault⟩ = .ok activeServices ∧
      ("pools" ∈ activeServices ↔
        ∃ row ∈ optTableRows
            (JSValue.obj [("tables", .obj [("pools", .obj [("rows", .obj
              [("p1", .obj [("amount", .str "3")])])])])]) "tables" "pools",
          (row.prop "amount").truthy = true ∧
          ∃ n, toNumber (row.prop "amount") = some n ∧ 0 < n) :=
  c4_pools_activation _ (by decide)

/-- C10 counterexample: with a non-empty pools row collection none of whose
rows activates `pools` (the single row is `null`, so it has no truthy
`amount`), an active vesting service does NOT validate and render: activation
inference already raises a TypeError on the `null` row, aborting the run with
no files written. -/
theorem c10_null_row_counterexample :
    runMain (.ok cfgVestingNullPool) = ([], some .typeError) := by
  rfl

/-- C10 (amended): for every configuration whose pool rows are non-nullish,
if the pools row collection is non-empty but no pool row has a truthy
`amount` with positive numeric conversion, then — with vesting active,
unlocking inactive and a non-empty agents row collection — `pools` is
inactive, cross-field validation passes (the "Vesting requires pool data"
check tests only row presence), the shared template context has
`hasPools = false`, and Vesting.sol is selected for rendering. -/
theorem c10_vesting_with_inactive_pools (pd : ProjectData) (active : List String)
    (hdet : determineActiveServices pd = .ok active)
    (hv : "vesting" ∈ active)
    (hu : "unlocking" ∉ active)
    (hrows : optTableRows pd.pools "tables" "pools" ≠ [])
    (hnn : ∀ row ∈ optTableRows pd.pools "tables" "pools", row.nullish = false)
    (hcond : ∀ row ∈ optTableRows pd.pools "tables" "pools",
      ((row.prop "amount").truthy && numGtZero (toNumber (row.prop "amount"))) = false)
    (hagents : getRowsArray (optChain pd.agents "rows") ≠ []) :
    "pools" ∉ active ∧
    validateServiceData active pd = .ok () ∧
    (buildTemplateContext pd active).hasPools = false ∧
    "Vesting.sol" ∈ (ALL_TEMPLATES.filter (templateSelectedRef active)).map TemplateDescr.output := by
  have hany : anyME poolRowActive (optTableRows pd.pools "tables" "pools") =
      .ok ((optTableRows pd.pools "tables" "pools").any
        (fun row => (row.prop "amount").truthy && numGtZero (toNumber (row.prop "amount")))) :=
    anyME_of_ok _ (fun row hrow => poolRowActive_of_not_nullish (hnn row hrow))
  have hanyfalse : (optTableRows pd.pools "tables" "pools").any
      (fun row => (row.prop "amount").truthy && numGtZero (toNumber (row.prop "amount"))) = false := by
    rw [← Bool.not_eq_true, List.any_eq_true]
    rintro ⟨row, hrow, hc⟩
    rw [hcond row hrow] at hc
    exact Bool.false_ne_true hc
  simp only [determineActiveServices, hany, except_bind_ok] at hdet
  injection hdet with hdet
  subst hdet
  rw [hanyfalse] at hv hu ⊢
  have hpools_not : "pools" ∉ activeList
      (decide ((optTableRows pd.vestingAndUnlocking "tables" "vesting").length > 0))
      (decide ((optTableRows pd.vestingAndUnlocking "tables" "unlocking").length > 0)) false
      (decide ((optTableRows pd.projectServices "serviceTables" "staking").length > 0))
      (decide ((optTableRows pd.projectServices "serviceTables" "farming").length > 0)) := by
    rw [(mem_activeList _ _ _ _ _).2.2.1]
    exact Bool.false_ne_true
  have hcv := List.elem_eq_true_of_mem hv
  have hcu : (activeList
      (decide ((optTableRows pd.vestingAndUnlocking "tables" "vesting").length > 0))
      (decide ((optTableRows pd.vestingAndUnlocking "tables" "unlocking").length > 0)) false
      (decide ((optTableRows pd.projectServices "serviceTables" "staking").length > 0))
      (decide ((optTableRows pd.projectServices "serviceTables" "farming").length > 0))).contains
        "unlocking" = false := by
    cases hc : List.contains _ "unlocking"
    · rfl
    · exact absurd (List.mem_of_elem_eq_true hc) hu
  have hcp : (activeList
      (decide ((optTableRows pd.vestingAndUnlocking "tables" "vesting").length > 0))
      (decide ((optTableRows pd.vestingAndUnlocking "tables" "unlocking").length > 0)) false
      (decide ((optTableRows pd.projectServices "serviceTables" "staking").length > 0))
      (decide ((optTableRows pd.projectServices "serviceTables" "farming").length > 0))).contains
        "pools" = false := by
    cases hc : List.contains _ "pools"
    · rfl
    · exact absurd (List.mem_of_elem_eq_true hc) hpools_not
  have hpoollen : (optTableRows pd.pools "tables" "pools").length ≠ 0 :=
    fun h => hrows (List.eq_nil_of_length_eq_zero h)
  have hagentslen : (getRowsArray (optChain pd.agents "rows")).length ≠ 0 :=
    fun h => hagents (List.eq_nil_of_length_eq_zero h)
  refine ⟨hpools_not, ?_, ?_, ?_⟩
  · simp [validateServiceData, hv, hu, hpoollen, hagentslen]
    rfl
  · exact hcp
  · exact List.mem_map.mpr ⟨⟨"Vesting.sol.hbs", "Vesting.sol", false, .single "vesting"⟩,
      List.mem_filter.mpr ⟨by decide, hcv⟩, rfl⟩

/-- C10 witness: one vesting row, one pool row with amount "0", one agent:
pools stays inactive, validation passes, `hasPools` is false and Vesting.sol
is rendered. -/
theorem c10_vesting_with_inactive_pools_witness :
    ∃ pd active, loadProjectData (.ok cfgVestingZeroPool) = .ok pd ∧
      determineActiveServices pd = .ok active ∧
      ("pools" ∉ active ∧
       validateServiceData active pd = .ok () ∧
       (buildTemplateContext pd active).hasPools = false ∧
       "Vesting.sol" ∈ (ALL_TEMPLATES.filter (templateSelectedRef active)).map TemplateDescr.output) :=
  ⟨_, _, rfl, rfl,
    c10_vesting_with_inactive_pools _ _ rfl (by decide) (by decide)
      (fun h => List.noConfusion h) (by decide) (by decide)
      (fun h => List.noConfusion h)⟩

/-- `mapME` computes a pure `List.map` when every callback call succeeds. -/
theorem mapME_of_ok {g : JSValue → α} {f : JSValue → Except PipeError α}
    (xs : List JSValue) (h : ∀ x ∈ xs, f x = .ok (g x)) :
    mapME f xs = .ok (xs.map g) := by
  induction xs with
  | nil => rfl
  | cons x xs ih =>
    have hx := h x (by simp)
    have hrest : ∀ y ∈ xs, f y = .ok (g y) := fun y hy => h y (by simp [hy])
    simp only [mapME, hx, except_bind_ok, ih hrest, List.map_cons]
    rfl

/-- The row-resolution test on a non-nullish row is the negation of the
specified pure resolution. -/
theorem unlockRowInvalid_of_not_nullish {va vi : List JSValue} {row : JSValue}
    (h : row.nullish = false) :
    unlockRowInvalid va vi row = .ok (!(specResolvesRow va vi row)) := by
  simp only [unlockRowInvalid, specResolvesRow]
  rw [strictProp_of_not_nullish "agent_optionType" h, except_bind_ok]
  by_cases h1 : strictEqJS (row.prop "agent_optionType") (.str "agent") = true
  · rw [if_pos h1, strictProp_of_not_nullish "agent_optionValue" h, except_bind_ok, if_pos h1]
  · rw [if_neg h1, if_neg h1]
    by_cases h2 : strictEqJS (row.prop "agent_optionType") (.str "investmentRound") = true
    · rw [if_pos h2, strictProp_of_not_nullish "agent_optionValue" h, except_bind_ok, if_pos h2]
    · rw [if_neg h2, if_neg h2]
      rfl

/-- The two-pass filter of the source (conditions for all rows first, then
the kept rows) is the one-pass `List.filter`. -/
theorem zip_filterMap_filter (g : JSValue → Bool) (xs : List JSValue) :
    ((xs.zip (xs.map g)).filterMap (fun p => if p.2 then some p.1 else none)) = xs.filter g := by
  induction xs with
  | nil => rfl
  | cons x xs ih =>
    simp only [List.map_cons, List.zip_cons_cons, List.filterMap_cons]
    cases hgx : g x <;> simp [hgx, ih, List.filter_cons]

/-- On non-nullish unlocking rows, the invalid-reference check computes the
specified invalid-value list and throws exactly when it is non-empty. -/
theorem checkInvalidAgents_eq (va vi unlockingRows : List JSValue)
    (h : ∀ r ∈ unlockingRows, r.nullish = false) :
    checkInvalidAgents va vi unlockingRows =
      (if (specInvalidValues va vi unlockingRows).length > 0 then
        .error (.invalidAgentReference ("Invalid agents in unlocking data: " ++
          String.intercalate ", " ((specInvalidValues va vi unlockingRows).map jsDisplay)))
      else .ok ()) := by
  have hconds : mapME (unlockRowInvalid va vi) unlockingRows =
      .ok (unlockingRows.map (fun r => !(specResolvesRow va vi r))) :=
    mapME_of_ok _ (fun r hr => unlockRowInvalid_of_not_nullish (h r hr))
  have hvals : mapME (fun row => strictProp row "agent_optionValue")
      (unlockingRows.filter (fun r => !(specResolvesRow va vi r))) =
      .ok ((unlockingRows.filter (fun r => !(specResolvesRow va vi r))).map
        (fun row => row.prop "agent_optionValue")) :=
    mapME_of_ok _ (fun r hr =>
      strictProp_of_not_nullish _ (h r (List.mem_of_mem_filter hr)))
  simp only [checkInvalidAgents, hconds, except_bind_ok, zip_filterMap_filter, hvals,
    specInvalidValues]
  split <;> rfl

/-- Optional access on a nullish value short-circuits to `undefined`. -/
theorem optChain_nullish {v : JSValue} (k : String) (h : v.nullish = true) :
    optChain v k = .undefined := by
  simp [optChain, h]

/-- Chaining from `undefined` stays `undefined`. -/
theorem optChain_undefined (k : String) : optChain .undefined k = .undefined := rfl

/-- `undefined` has no rows. -/
theorem getRowsArray_undefined : getRowsArray .undefined = [] := rfl

/-- If an optionally-chained three-step path ends in a non-empty row
collection, every intermediate value is non-nullish, so the strict access of
the source computes the same value. -/
theorem strictPropPath_of_rows_nonempty {v : JSValue} {k1 k2 k3 : String}
    (h : getRowsArray (optChainPath v [k1, k2, k3]) ≠ []) :
    strictPropPath v [k1, k2, k3] = .ok (optChainPath v [k1, k2, k3]) := by
  by_cases hv : v.nullish = true
  · refine absurd ?_ h
    simp only [optChainPath, List.foldl, optChain_nullish _ hv, optChain_undefined, getRowsArray_undefined]
  · rw [Bool.not_eq_true] at hv
    by_cases hv1 : (v.prop k1).nullish = true
    · refine absurd ?_ h
      simp only [optChainPath, List.foldl, optChain_of_not_nullish _ hv,
        optChain_nullish _ hv1, optChain_undefined, getRowsArray_undefined]
    · rw [Bool.not_eq_true] at hv1
      by_cases hv2 : ((v.prop k1).prop k2).nullish = true
      · refine absurd ?_ h
        simp only [optChainPath, List.foldl, optChain_of_not_nullish _ hv,
          optChain_of_not_nullish _ hv1, optChain_nullish _ hv2, getRowsArray_undefined]
      · rw [Bool.not_eq_true] at hv2
        simp only [strictPropPath, optChainPath, List.foldl,
          strictProp_of_not_nullish _ hv, except_bind_ok,
          strictProp_of_not_nullish _ hv1,
          strictProp_of_not_nullish _ hv2,
          optChain_of_not_nullish _ hv, optChain_of_not_nullish _ hv1,
          optChain_of_not_nullish _ hv2]

/-- C5 counterexample: a single `null` unlocking row has a missing
`agent_optionType`, which the claim says is always invalid and should be
collected into an InvalidAgentReferenceError; the code instead raises a
TypeError reading `agent_optionType` off the `null` row. -/
theorem c5_null_row_counterexample :
    (do
      let pd ← loadProjectData (.ok cfgNullUnlockRow)
      let activeServices ← determineActiveServices pd
      validateServiceData activeServices pd) = .error .typeError ∧
    kindOf .typeError ≠ ErrKind.invalidAgentKind :=
  ⟨rfl, by decide⟩

/-- C5 (amended): for every configuration with unlocking active whose agent,
investment-round and unlocking rows are non-nullish (and whose vesting
checks, if vesting is active, pass), the cross-field validator fails with
UnlockingDataError exactly when both the agents and investment-rounds row
collections are empty; otherwise it fails with InvalidAgentReferenceError
comma-joining, in row iteration order with duplicates preserved, the
`agent_optionValue` of every row that does not resolve — an `"agent"` row
against some agent's `agentName`, an `"investmentRound"` row against some
investment round's `source_name`, any other (or missing) `agent_optionType`
never resolving — if and only if at least one row fails resolution, and
succeeds otherwise. -/
theorem c5_unlocking_validation (pd : ProjectData) (active : List String)
    (hdet : determineActiveServices pd = .ok active)
    (hu : "unlocking" ∈ active)
    (hvest : "vesting" ∈ active →
      optTableRows pd.pools "tables" "pools" ≠ [] ∧
      getRowsArray (optChain pd.agents "rows") ≠ [])
    (hA : pd.agents.nullish = false)
    (hI : pd.investmentRounds.nullish = false)
    (hAr : ∀ r ∈ getRowsArray (pd.agents.prop "rows"), r.nullish = false)
    (hIr : ∀ r ∈ getRowsArray (pd.investmentRounds.prop "rows"), r.nullish = false)
    (hUr : ∀ r ∈ optTableRows pd.vestingAndUnlocking "tables" "unlocking", r.nullish = false) :
    (getRowsArray (pd.agents.prop "rows") = [] ∧
        getRowsArray (pd.investmentRounds.prop "rows") = [] →
      validateServiceData active pd =
        .error (.unlockingData "Unlocking requires agent or investment round data")) ∧
    (¬(getRowsArray (pd.agents.prop "rows") = [] ∧
        getRowsArray (pd.investmentRounds.prop "rows") = []) →
      validateServiceData active pd =
        (if (specInvalidValues
              ((getRowsArray (pd.agents.prop "rows")).map (fun r => r.prop "agentName"))
              ((getRowsArray (pd.investmentRounds.prop "rows")).map (fun r => r.prop "source_name"))
              (optTableRows pd.vestingAndUnlocking "tables" "unlocking")).length > 0 then
          .error (.invalidAgentReference ("Invalid agents in unlocking data: " ++
            String.intercalate ", "
              ((specInvalidValues
                ((getRowsArray (pd.agents.prop "rows")).map (fun r => r.prop "agentName"))
                ((getRowsArray (pd.investmentRounds.prop "rows")).map (fun r => r.prop "source_name"))
                (optTableRows pd.vestingAndUnlocking "tables" "unlocking")).map jsDisplay)))
        else .ok ())) := by
  simp only [determineActiveServices] at hdet
  cases hany : anyME poolRowActive (optTableRows pd.pools "tables" "pools") with
  | error e =>
      rw [hany, except_bind_error] at hdet
      exact Except.noConfusion hdet
  | ok b =>
      rw [hany, except_bind_ok] at hdet
      injection hdet with hact
      subst hact
      have hc2 : decide ((optTableRows pd.vestingAndUnlocking "tables" "unlocking").length > 0) =
          true := ((mem_activeList _ _ _ _ _).2.1).mp hu
      have hune : optTableRows pd.vestingAndUnlocking "tables" "unlocking" ≠ [] :=
        List.length_pos.mp (of_decide_eq_true hc2)
      have hpath := strictPropPath_of_rows_nonempty hune
      have hcu : List.contains (activeList
          (decide ((optTableRows pd.vestingAndUnlocking "tables" "vesting").length > 0))
          (decide ((optTableRows pd.vestingAndUnlocking "tables" "unlocking").length > 0)) b
          (decide ((optTableRows pd.projectServices "serviceTables" "staking").length > 0))
          (decide ((optTableRows pd.projectServices "serviceTables" "farming").length > 0)))
          "unlocking" = true := List.elem_eq_true_of_mem hu
      have hAval := strictProp_of_not_nullish "rows" hA
      have hIval := strictProp_of_not_nullish "rows" hI
      have hvA : mapME (fun row => strictProp row "agentName")
          (getRowsArray (pd.agents.prop "rows")) =
          .ok ((getRowsArray (pd.agents.prop "rows")).map (fun r => r.prop "agentName")) :=
        mapME_of_ok _ (fun r hr => strictProp_of_not_nullish _ (hAr r hr))
      have hvI : mapME (fun row => strictProp row "source_name")
          (getRowsArray (pd.investmentRounds.prop "rows")) =
          .ok ((getRowsArray (pd.investmentRounds.prop "rows")).map
            (fun r => r.prop "source_name")) :=
        mapME_of_ok _ (fun r hr => strictProp_of_not_nullish _ (hIr r hr))
      have hchk := checkInvalidAgents_eq
        ((getRowsArray (pd.agents.prop "rows")).map (fun r => r.prop "agentName"))
        ((getRowsArray (pd.investmentRounds.prop "rows")).map (fun r => r.prop "source_name"))
        (optTableRows pd.vestingAndUnlocking "tables" "unlocking") hUr
      have hval : validateServiceData (activeList
          (decide ((optTableRows pd.vestingAndUnlocking "tables" "vesting").length > 0))
          (decide ((optTableRows pd.vestingAndUnlocking "tables" "unlocking").length > 0)) b
          (decide ((optTableRows pd.projectServices "serviceTables" "staking").length > 0))
          (decide ((optTableRows pd.projectServices "serviceTables" "farming").length > 0))) pd =
          (if (getRowsArray (pd.agents.prop "rows")).length = 0 ∧
              (getRowsArray (pd.investmentRounds.prop "rows")).length = 0 then
            .error (.unlockingData "Unlocking requires agent or investment round data")
          else
            (if (specInvalidValues
                  ((getRowsArray (pd.agents.prop "rows")).map (fun r => r.prop "agentName"))
                  ((getRowsArray (pd.investmentRounds.prop "rows")).map
                    (fun r => r.prop "source_name"))
                  (optTableRows pd.vestingAndUnlocking "tables" "unlocking")).length > 0 then
              .error (.invalidAgentReference ("Invalid agents in unlocking data: " ++
                String.intercalate ", "
                  ((specInvalidValues
                    ((getRowsArray (pd.agents.prop "rows")).map (fun r => r.prop "agentName"))
                    ((getRowsArray (pd.investmentRounds.prop "rows")).map
                      (fun r => r.prop "source_name"))
                    (optTableRows pd.vestingAndUnlocking "tables" "unlocking")).map jsDisplay)))
            else .ok ())) := by
        simp only [validateServiceData]
        by_cases hvm : "vesting" ∈ activeList
            (decide ((optTableRows pd.vestingAndUnlocking "tables" "vesting").length > 0))
            (decide ((optTableRows pd.vestingAndUnlocking "tables" "unlocking").length > 0)) b
            (decide ((optTableRows pd.projectServices "serviceTables" "staking").length > 0))
            (decide ((optTableRows pd.projectServices "serviceTables" "farming").length > 0))
        · have hcv := List.elem_eq_true_of_mem hvm
          obtain ⟨hp, ha⟩ := hvest hvm
          have hplen : ¬((optTableRows pd.pools "tables" "pools").length = 0) :=
            fun h0 => hp (List.eq_nil_of_length_eq_zero h0)
          have halen : ¬((getRowsArray (optChain pd.agents "rows")).length = 0) :=
            fun h0 => ha (List.eq_nil_of_length_eq_zero h0)
          rw [if_pos hcv, if_neg hplen, if_neg halen, if_pos hcu,
            hAval, except_bind_ok, hIval, except_bind_ok]
          by_cases hbe : (getRowsArray (pd.agents.prop "rows")).length = 0 ∧
              (getRowsArray (pd.investmentRounds.prop "rows")).length = 0
          · rw [if_pos hbe, if_pos hbe]
            rfl
          · rw [if_neg hbe, if_neg hbe, hvA, except_bind_ok, hvI, except_bind_ok,
              hpath, except_bind_ok,
              show getRowsArray (optChainPath pd.vestingAndUnlocking
                ["tables", "unlocking", "rows"]) =
                optTableRows pd.vestingAndUnlocking "tables" "unlocking" from rfl,
              hchk]
            rfl
        · have hcv : List.contains (activeList
              (decide ((optTableRows pd.vestingAndUnlocking "tables" "vesting").length > 0))
              (decide ((optTableRows pd.vestingAndUnlocking "tables" "unlocking").length > 0)) b
              (decide ((optTableRows pd.projectServices "serviceTables" "staking").length > 0))
              (decide ((optTableRows pd.projectServices "serviceTables" "farming").length > 0)))
              "vesting" = false := by
            cases hc : List.contains _ "vesting"
            · rfl
            · exact absurd (List.mem_of_elem_eq_true hc) hvm
          rw [if_neg (by rw [hcv]; exact Bool.false_ne_true), if_pos hcu,
            hAval, except_bind_ok, hIval, except_bind_ok]
          by_cases hbe : (getRowsArray (pd.agents.prop "rows")).length = 0 ∧
              (getRowsArray (pd.investmentRounds.prop "rows")).length = 0
          · rw [if_pos hbe, if_pos hbe]
            rfl
          · rw [if_neg hbe, if_neg hbe, hvA, except_bind_ok, hvI, except_bind_ok,
              hpath, except_bind_ok,
              show getRowsArray (optChainPath pd.vestingAndUnlocking
                ["tables", "unlocking", "rows"]) =
                optTableRows pd.vestingAndUnlocking "tables" "unlocking" from rfl,
              hchk]
            rfl
      constructor
      · rintro ⟨h1, h2⟩
        rw [hval, if_pos ⟨by rw [h1]; rfl, by rw [h2]; rfl⟩]
      · intro hne
        have hnelen : ¬((getRowsArray (pd.agents.prop "rows")).length = 0 ∧
            (getRowsArray (pd.investmentRounds.prop "rows")).length = 0) :=
          fun hb => hne ⟨List.eq_nil_of_length_eq_zero hb.1,
            List.eq_nil_of_length_eq_zero hb.2⟩
        rw [hval, if_neg hnelen]

/-- C5 witness: the unlocking-only configuration with a resolvable agent
reference passes cross-field validation. -/
theorem c5_unlocking_validation_witness :
    validateServiceData ["unlocking"] pdUnlockOnly = .ok () :=
  ((c5_unlocking_validation pdUnlockOnly ["unlocking"] rfl (by decide)
      (fun hv => absurd hv (by decide)) rfl rfl (by decide) (by decide) (by decide)).2
      (fun hb => List.noConfusion hb.1)).trans rfl

/-- When a section is non-nullish and its inner container is non-nullish, the
monolithic strict row extraction computes the refactored optional-chained
rows. -/
theorem monoTableRows_eq (sectionV : JSValue) (outer inner : String)
    (hs : sectionV.nullish = false) (ht : (sectionV.prop outer).nullish = false) :
    monoTableRows sectionV outer inner = .ok (optTableRows sectionV outer inner) := by
  simp only [monoTableRows, optTableRows, optChainPath, List.foldl]
  rw [strictProp_of_not_nullish outer hs, except_bind_ok,
      strictProp_of_not_nullish inner ht, except_bind_ok,
      optChain_of_not_nullish outer hs, optChain_of_not_nullish inner ht]
  by_cases he : ((sectionV.prop outer).prop inner).truthy = true
  · rw [if_pos he, strictProp_of_not_nullish "rows" (truthy_not_nullish he), except_bind_ok,
      optChain_of_not_nullish "rows" (truthy_not_nullish he)]
  · rw [if_neg he]
    rw [Bool.not_eq_true] at he
    rw [getRowsArray_of_not_truthy he, optChain_rows_of_not_truthy "rows" he]

/-- The monolithic validation block computes exactly the staged
`validateServiceData`, given non-nullish `agents` / `investmentRounds`
sections and (when unlocking is active) a well-defined strict unlocking-rows
path. -/
theorem monoValidation_eq (pd : ProjectData) (activeServices : List String)
    (hA : pd.agents.nullish = false) (hI : pd.investmentRounds.nullish = false)
    (hpath : activeServices.contains "unlocking" = true →
      strictPropPath pd.vestingAndUnlocking ["tables", "unlocking", "rows"] =
        .ok (optChainPath pd.vestingAndUnlocking ["tables", "unlocking", "rows"])) :
    monoValidation activeServices (optTableRows pd.pools "tables" "pools")
      (optTableRows pd.vestingAndUnlocking "tables" "unlocking")
      pd.agents pd.investmentRounds =
      validateServiceData activeServices pd := by
  simp only [monoValidation, validateServiceData,
    strictProp_of_not_nullish "rows" hA, strictProp_of_not_nullish "rows" hI,
    except_bind_ok, optChain_of_not_nullish "rows" hA]
  by_cases hcv : activeServices.contains "vesting" = true
  · rw [if_pos hcv, if_pos hcv]
    by_cases hplen : (optTableRows pd.pools "tables" "pools").length = 0
    · rw [if_pos hplen, if_pos hplen]
      rfl
    · rw [if_neg hplen, if_neg hplen]
      by_cases halen : (getRowsArray (pd.agents.prop "rows")).length = 0
      · rw [if_pos halen, if_pos halen]
        rfl
      · rw [if_neg halen, if_neg halen]
        by_cases hcu : activeServices.contains "unlocking" = true
        · rw [if_pos hcu, if_pos hcu]
          by_cases hbe : (getRowsArray (pd.agents.prop "rows")).length = 0 ∧
              (getRowsArray (pd.investmentRounds.prop "rows")).length = 0
          · rw [if_pos hbe, if_pos hbe]
            rfl
          · rw [if_neg hbe, if_neg hbe, hpath hcu]
            rfl
        · rw [if_neg hcu, if_neg hcu]
  · rw [if_neg hcv, if_neg hcv]
    by_cases hcu : activeServices.contains "unlocking" = true
    · rw [if_pos hcu, if_pos hcu]
      by_cases hbe : (getRowsArray (pd.agents.prop "rows")).length = 0 ∧
          (getRowsArray (pd.investmentRounds.prop "rows")).length = 0
      · rw [if_pos hbe, if_pos hbe]
        rfl
      · rw [if_neg hbe, if_neg hbe, hpath hcu]
        rfl
    · rw [if_neg hcu, if_neg hcu]

/-- The two variants' template filter predicates agree on every descriptor. -/
theorem templateSelected_mono_eq_ref (activeServices : List String) (t : TemplateDescr) :
    templateSelectedMono activeServices t = templateSelectedRef activeServices t := by
  cases h : t.required <;> cases hs : t.service <;>
    simp [templateSelectedMono, templateSelectedRef, h, hs]

/-- Bind on `Except` reduces on `pure`. -/
theorem except_bind_pure {ε α β : Type} (a : α) (f : α → Except ε β) :
    ((pure a : Except ε α) >>= f) = f a := rfl

/-- C9 counterexample: on a configuration whose `vestingAndUnlocking` section
is a truthy object without a `tables` member, the staged pipeline succeeds
and writes the two required contracts, while the monolithic script's strict
`vestingData.tables.vesting` access raises a TypeError and writes nothing —
the two variants are not behaviorally equivalent. -/
theorem c9_variant_counterexample :
    runMain (.ok cfgBareVau) = (["Token.sol", "IToken.sol"], none) ∧
    runMono (.ok cfgBareVau) = ([], some .typeError) ∧
    ((["Token.sol", "IToken.sol"], (none : Option PipeError)) ≠
      (([] : List String), some PipeError.typeError)) :=
  ⟨rfl, rfl, by decide⟩

/-- C9 (amended): on every input whose truthy `vestingAndUnlocking`, `pools`
and `projectServices` sections keep their inner `tables`/`serviceTables`
container non-nullish, the monolithic script and the staged pipeline write
the same files in the same order and fail with the same kind of error (the
wording of the load-failure and required-field messages differs between the
variants); outside this set the monolithic variant can additionally raise a
TypeError where the staged one proceeds. -/
theorem c9_variant_equivalence (input : Except String JSValue)
    (hwf : wellFormedInput input) :
    (runMain input).1 = (runMono input).1 ∧
    (runMain input).2.map kindOf = (runMono input).2.map kindOf := by
  cases input with
  | error msg => exact ⟨rfl, rfl⟩
  | ok j =>
    simp only [wellFormedInput] at hwf
    by_cases hj : j.nullish = true
    · have hsp : strictProp j "initialData" = .error .typeError := by
        simp [strictProp, hj]
      have hmain : runMain (.ok j) = ([], some .typeError) := by
        simp only [runMain, loadProjectData, sectionOrDefault, hsp, except_bind_error]
      have hmono : runMono (.ok j) = ([], some .typeError) := by
        simp only [runMono, runMonoE, sectionOrDefault, hsp, except_bind_error]
      rw [hmain, hmono]
      exact ⟨rfl, rfl⟩
    · rw [Bool.not_eq_true] at hj
      obtain ⟨hw1, hw2, hw3⟩ := hwf hj
      have hInit : (sectionVal j "initialData" (JSValue.obj [])).nullish = false :=
        sectionVal_not_nullish "initialData" rfl
      have hsec : ∀ (k : String) (d : JSValue),
          sectionOrDefault j k d = .ok (sectionVal j k d) :=
        fun k d => sectionOrDefault_ok k d hj
      have htn := strictProp_of_not_nullish (v := sectionVal j "initialData" (.obj []))
        "tokenName" hInit
      have hta := strictProp_of_not_nullish (v := sectionVal j "initialData" (.obj []))
        "totalTokensAmount" hInit
      have hInnerVal : ∀ (k inner : String) (d : JSValue), innerContainerOk j k inner →
          (d.prop inner).nullish = false →
          ((sectionVal j k d).prop inner).nullish = false := by
        intro k inner d hok hdef
        unfold sectionVal
        split
        next htr => exact hok htr
        next => exact hdef
      by_cases hreq : (!((sectionVal j "initialData" (.obj [])).prop "tokenName").truthy ||
          !((sectionVal j "initialData" (.obj [])).prop "totalTokensAmount").truthy) = true
      · have hmain : runMain (.ok j) = ([], some (.missingRequiredField
            "Missing required fields in JSON: initialData.tokenName and initialData.totalTokensAmount are required")) := by
          simp only [runMain, loadProjectData, hsec, except_bind_pure, except_bind_ok,
            htn, hta, if_pos hreq]
          rfl
        have hmono : runMono (.ok j) = ([], some (.missingRequiredField
            "Missing required fields in JSON: tokenName and totalTokensAmount are required")) := by
          simp only [runMono, runMonoE, hsec, except_bind_pure, except_bind_ok,
            htn, hta, if_pos hreq]
          rfl
        rw [hmain, hmono]
        exact ⟨rfl, rfl⟩
      · have hm1 := monoTableRows_eq (sectionVal j "vestingAndUnlocking" vauDefault)
          "tables" "vesting" (sectionVal_not_nullish "vestingAndUnlocking" rfl)
          (hInnerVal "vestingAndUnlocking" "tables" vauDefault hw1 rfl)
        have hm2 := monoTableRows_eq (sectionVal j "vestingAndUnlocking" vauDefault)
          "tables" "unlocking" (sectionVal_not_nullish "vestingAndUnlocking" rfl)
          (hInnerVal "vestingAndUnlocking" "tables" vauDefault hw1 rfl)
        have hm3 := monoTableRows_eq (sectionVal j "pools" poolsDefault)
          "tables" "pools" (sectionVal_not_nullish "pools" rfl)
          (hInnerVal "pools" "tables" poolsDefault hw2 rfl)
        have hm4 := monoTableRows_eq (sectionVal j "projectServices" servicesDefault)
          "serviceTables" "staking" (sectionVal_not_nullish "projectServices" rfl)
          (hInnerVal "projectServices" "serviceTables" servicesDefault hw3 rfl)
        have hm5 := monoTableRows_eq (sectionVal j "projectServices" servicesDefault)
          "serviceTables" "farming" (sectionVal_not_nullish "projectServices" rfl)
          (hInnerVal "projectServices" "serviceTables" servicesDefault hw3 rfl)
        cases hany : anyME poolRowActive
            (optTableRows (sectionVal j "pools" poolsDefault) "tables" "pools") with
        | error e =>
            have hmain : runMain (.ok j) = ([], some e) := by
              simp only [runMain, loadProjectData, hsec, except_bind_pure, except_bind_ok,
                htn, hta, if_neg hreq, determineActiveServices, hany, except_bind_error]
            have hmono : runMono (.ok j) = ([], some e) := by
              simp only [runMono, runMonoE, hsec, except_bind_pure, except_bind_ok,
                htn, hta, if_neg hreq, hm1, hm2, hm3, hm4, hm5, hany, except_bind_error]
            rw [hmain, hmono]
            exact ⟨rfl, rfl⟩
        | ok b =>
            have hpath : (activeList
                (decide ((optTableRows (sectionVal j "vestingAndUnlocking" vauDefault)
                  "tables" "vesting").length > 0))
                (decide ((optTableRows (sectionVal j "vestingAndUnlocking" vauDefault)
                  "tables" "unlocking").length > 0)) b
                (decide ((optTableRows (sectionVal j "projectServices" servicesDefault)
                  "serviceTables" "staking").length > 0))
                (decide ((optTableRows (sectionVal j "projectServices" servicesDefault)
                  "serviceTables" "farming").length > 0))).contains "unlocking" = true →
                strictPropPath (sectionVal j "vestingAndUnlocking" vauDefault)
                  ["tables", "unlocking", "rows"] =
                .ok (optChainPath (sectionVal j "vestingAndUnlocking" vauDefault)
                  ["tables", "unlocking", "rows"]) := by
              intro hcu
              have hc2 := ((mem_activeList _ _ _ _ _).2.1).mp (List.mem_of_elem_eq_true hcu)
              exact strictPropPath_of_rows_nonempty
                (List.length_pos.mp (of_decide_eq_true hc2))
            have hmv := monoValidation_eq
              ⟨sectionVal j "initialData" (.obj []),
               sectionVal j "vestingAndUnlocking" vauDefault,
               sectionVal j "pools" poolsDefault,
               sectionVal j "agents" rowsDefault,
               sectionVal j "investmentRounds" rowsDefault,
               sectionVal j "projectServices" servicesDefault⟩
              (activeList
                (decide ((optTableRows (sectionVal j "vestingAndUnlocking" vauDefault)
                  "tables" "vesting").length > 0))
                (decide ((optTableRows (sectionVal j "vestingAndUnlocking" vauDefault)
                  "tables" "unlocking").length > 0)) b
                (decide ((optTableRows (sectionVal j "projectServices" servicesDefault)
                  "serviceTables" "staking").length > 0))
                (decide ((optTableRows (sectionVal j "projectServices" servicesDefault)
                  "serviceTables" "farming").length > 0)))
              (sectionVal_not_nullish "agents" rfl)
              (sectionVal_not_nullish "investmentRounds" rfl)
              hpath
            dsimp only at hmv
            have hmain : runMain (.ok j) =
                (match validateServiceData (activeList
                    (decide ((optTableRows (sectionVal j "vestingAndUnlocking" vauDefault)
                      "tables" "vesting").length > 0))
                    (decide ((optTableRows (sectionVal j "vestingAndUnlocking" vauDefault)
                      "tables" "unlocking").length > 0)) b
                    (decide ((optTableRows (sectionVal j "projectServices" servicesDefault)
                      "serviceTables" "staking").length > 0))
                    (decide ((optTableRows (sectionVal j "projectServices" servicesDefault)
                      "serviceTables" "farming").length > 0)))
                  ⟨sectionVal j "initialData" (.obj []),
                   sectionVal j "vestingAndUnlocking" vauDefault,
                   sectionVal j "pools" poolsDefault,
                   sectionVal j "agents" rowsDefault,
                   sectionVal j "investmentRounds" rowsDefault,
                   sectionVal j "projectServices" servicesDefault⟩ with
                 | .ok _ => ((ALL_TEMPLATES.filter (templateSelectedRef (activeList
                    (decide ((optTableRows (sectionVal j "vestingAndUnlocking" vauDefault)
                      "tables" "vesting").length > 0))
                    (decide ((optTableRows (sectionVal j "vestingAndUnlocking" vauDefault)
                      "tables" "unlocking").length > 0)) b
                    (decide ((optTableRows (sectionVal j "projectServices" servicesDefault)
                      "serviceTables" "staking").length > 0))
                    (decide ((optTableRows (sectionVal j "projectServices" servicesDefault)
                      "serviceTables" "farming").length > 0))))).map TemplateDescr.output, none)
                 | .error e => ([], some e)) := by
              simp only [runMain, loadProjectData, hsec, except_bind_pure, except_bind_ok,
                htn, hta, if_neg hreq, determineActiveServices, hany, except_bind_ok]
              cases validateServiceData _ _ <;> rfl
            have hmono : runMono (.ok j) =
                (match validateServiceData (activeList
                    (decide ((optTableRows (sectionVal j "vestingAndUnlocking" vauDefault)
                      "tables" "vesting").length > 0))
                    (decide ((optTableRows (sectionVal j "vestingAndUnlocking" vauDefault)
                      "tables" "unlocking").length > 0)) b
                    (decide ((optTableRows (sectionVal j "projectServices" servicesDefault)
                      "serviceTables" "staking").length > 0))
                    (decide ((optTableRows (sectionVal j "projectServices" servicesDefault)
                      "serviceTables" "farming").length > 0)))
                  ⟨sectionVal j "initialData" (.obj []),
                   sectionVal j "vestingAndUnlocking" vauDefault,
                   sectionVal j "pools" poolsDefault,
                   sectionVal j "agents" rowsDefault,
                   sectionVal j "investmentRounds" rowsDefault,
                   sectionVal j "projectServices" servicesDefault⟩ with
                 | .ok _ => ((ALL_TEMPLATES.filter (templateSelectedMono (activeList
                    (decide ((optTableRows (sectionVal j "vestingAndUnlocking" vauDefault)
                      "tables" "vesting").length > 0))
                    (decide ((optTableRows (sectionVal j "vestingAndUnlocking" vauDefault)
                      "tables" "unlocking").length > 0)) b
                    (decide ((optTableRows (sectionVal j "projectServices" servicesDefault)
                      "serviceTables" "staking").length > 0))
                    (decide ((optTableRows (sectionVal j "projectServices" servicesDefault)
                      "serviceTables" "farming").length > 0))))).map TemplateDescr.output, none)
                 | .error e => ([], some e)) := by
              simp only [runMono, runMonoE, hsec, except_bind_pure, except_bind_ok,
                htn, hta, if_neg hreq, hm1, hm2, hm3, hm4, hm5, hany, hmv]
              cases validateServiceData _ _ <;> rfl
            rw [hmain, hmono]
            have hfilters : ALL_TEMPLATES.filter (templateSelectedMono (activeList
                (decide ((optTableRows (sectionVal j "vestingAndUnlocking" vauDefault)
                  "tables" "vesting").length > 0))
                (decide ((optTableRows (sectionVal j "vestingAndUnlocking" vauDefault)
                  "tables" "unlocking").length > 0)) b
                (decide ((optTableRows (sectionVal j "projectServices" servicesDefault)
                  "serviceTables" "staking").length > 0))
                (decide ((optTableRows (sectionVal j "projectServices" servicesDefault)
                  "serviceTables" "farming").length > 0)))) =
                ALL_TEMPLATES.filter (templateSelectedRef (activeList
                (decide ((optTableRows (sectionVal j "vestingAndUnlocking" vauDefault)
                  "tables" "vesting").length > 0))
                (decide ((optTableRows (sectionVal j "vestingAndUnlocking" vauDefault)
                  "tables" "unlocking").length > 0)) b
                (decide ((optTableRows (sectionVal j "projectServices" servicesDefault)
                  "serviceTables" "staking").length > 0))
                (decide ((optTableRows (sectionVal j "projectServices" servicesDefault)
                  "serviceTables" "farming").length > 0)))) :=
              List.filter_congr (fun t _ => templateSelected_mono_eq_ref _ t)
            cases validateServiceData _ _ with
            | error e => exact ⟨rfl, rfl⟩
            | ok u => exact ⟨by rw [hfilters], rfl⟩

/-- C9 witness: on the well-formed unlocking-only configuration the two
variants agree (both write the same five files and raise no error). -/
theorem c9_variant_equivalence_witness :
    (runMain (.ok cfgUnlockOnly)).1 = (runMono (.ok cfgUnlockOnly)).1 ∧
    (runMain (.ok cfgUnlockOnly)).2.map kindOf = (runMono (.ok cfgUnlockOnly)).2.map kindOf :=
  c9_variant_equivalence (.ok cfgUnlockOnly)
    (by simp only [wellFormedInput, innerContainerOk]; decide)
